import Mathlib

/-!
Verification of the credential-verification core in
`src/backend/libpq/crypt.c` (function `md5_crypt_verify`).

C strings (`char *`), which in this code never contain interior NUL
bytes, are modelled as `List Char`.  The system-cache lookup of a role
is modelled as an explicit `lookup : List Char → Option RoleRecord`
parameter, the current timestamp as an `Int` parameter, and the keyed
hash `pg_md5_encrypt` (whose source lives outside this repository
snapshot) as a fallible function parameter, so that its possible
failure — it returns `false` on allocation failure — is represented by
`Option`.
-/

/-- Byte strings: the model of NUL-free C strings. -/
abbrev Str := List Char

/-- `STATUS_OK` from the PostgreSQL headers. -/
def STATUS_OK : Int := 0

/-- `STATUS_ERROR` from the PostgreSQL headers. -/
def STATUS_ERROR : Int := -1

/-- Modelled from the spec: `MD5_PASSWD_LEN` from `common/md5.h` is not
under `src/`; per the spec the hashed form is a fixed marker plus a
fixed-length hex digest, i.e. `"md5"` (3 chars) plus 32 hex characters,
total 35. -/
def MD5_PASSWD_LEN : Nat := 35

/-- Modelled from the spec: the `isMD5` macro from `common/md5.h` is not
under `src/`; per the spec (§3, claim sources) the hashed form is
"identifiable by a fixed marker/prefix" together with the fixed hashed
length: `strncmp(passwd, "md5", 3) == 0 && strlen(passwd) == MD5_PASSWD_LEN`. -/
def isMD5 (passwd : Str) : Bool :=
  passwd.take 3 = "md5".toList && passwd.length = MD5_PASSWD_LEN

/-- Modelled from the spec: `pg_md5_encrypt` from `common/md5.c` is not
under `src/`; per the spec (§4.1) it is the keyed hash
`H(secret, key, keyLen) -> fixedLengthOutput`: it concatenates the
secret with the key, digests, and prefixes the `"md5"` marker.  The
digest proper is kept abstract as the `md5hex` parameter. -/
def pg_md5_encrypt (md5hex : Str → Str) (passwd salt : Str) : Str :=
  "md5".toList ++ md5hex (passwd ++ salt)

/-- The always-succeeding hash used when modelling runs in which no
allocation failure occurs: `pg_md5_encrypt` lifted into `Option`. -/
def pgH (md5hex : Str → Str) : Str → Str → Option Str :=
  fun passwd salt => some (pg_md5_encrypt md5hex passwd salt)

/-- The `pg_authid` attributes that `md5_crypt_verify` reads:
`rolpassword` (NULL-able text) and `rolvaliduntil` (NULL-able
timestamp, modelled as `Int` microseconds). -/
structure RoleRecord where
  rolpassword : Option Str
  rolvaliduntil : Option Int
deriving DecidableEq, Repr

/-- A directory containing a single record under every name; convenience
for stating theorems about one role's verification. -/
def dir1 (rec : RoleRecord) : Str → Option RoleRecord :=
  fun _ => some rec

/-- Lines 101–135 of crypt.c: the expected challenge digest `crypt_pwd`
computed under MD5 authentication (`md5_salt` present).  If the stored
password is already encrypted (`isMD5`), only the salt is applied to it
with the `"md5"` marker stripped (`shadow_pass + strlen("md5")`);
otherwise the stored plaintext is first encrypted keyed on the role
name and the salt is applied to that intermediate.  `none` models a
`pg_md5_encrypt` failure (the function returning `false`). -/
def challengeExpected (H : Str → Str → Option Str)
    (role shadow_pass salt : Str) : Option Str :=
  if isMD5 shadow_pass then
    H (shadow_pass.drop 3) salt
  else
    (H shadow_pass role).bind fun crypt_pwd2 =>
      H (crypt_pwd2.drop 3) salt

/-- Lines 96–154 of crypt.c: the pair
`(crypt_client_pass, crypt_pwd)` that line 156 compares, or `none` when
a `pg_md5_encrypt` call fails.  With a salt the client value is the
presented digest and the expected value is `challengeExpected`; without
a salt, a hashed stored password makes the code encrypt the presented
plaintext keyed on the role name, while a plain stored password is
compared raw. -/
def comparisonPair (H : Str → Str → Option Str)
    (role client_pass : Str) (md5_salt : Option Str)
    (shadow_pass : Str) : Option (Str × Str) :=
  match md5_salt with
  | some salt =>
      (challengeExpected H role shadow_pass salt).map
        (fun crypt_pwd => (client_pass, crypt_pwd))
  | none =>
      if isMD5 shadow_pass then
        (H client_pass role).map
          (fun crypt_client_pass => (crypt_client_pass, shadow_pass))
      else
        some (client_pass, shadow_pass)

/-- Log-detail string of line 59: `Role "%s" does not exist.` -/
def roleNotFoundDetail (role : Str) : Str :=
  "Role \"".toList ++ role ++ "\" does not exist.".toList

/-- Log-detail string of line 69: `User "%s" has no password assigned.` -/
def noPasswordDetail (role : Str) : Str :=
  "User \"".toList ++ role ++ "\" has no password assigned.".toList

/-- Log-detail string of line 84: `User "%s" has an empty password.` -/
def emptyPasswordDetail (role : Str) : Str :=
  "User \"".toList ++ role ++ "\" has an empty password.".toList

/-- Log-detail string of line 165: `User "%s" has an expired password.` -/
def expiredDetail (role : Str) : Str :=
  "User \"".toList ++ role ++ "\" has an expired password.".toList

/-- Log-detail string of line 173: `Password does not match for user "%s".` -/
def mismatchDetail (role : Str) : Str :=
  "Password does not match for user \"".toList ++ role ++ "\".".toList

/-- `md5_crypt_verify` (crypt.c lines 42–182).  Returns the status
(`STATUS_OK` or `STATUS_ERROR`) together with the log detail the
function stores through `*logdetail` (`none` when it leaves `*logdetail`
unset, which happens on success and on `pg_md5_encrypt` failure).
The control flow is: role lookup (lines 56–62), NULL password check
(lines 64–72), empty password check (lines 82–87), computation of the
compared pair (lines 96–154, here `comparisonPair`), the comparison and
the `rolvaliduntil` expiration check (lines 156–174). -/
def md5_crypt_verify (H : Str → Str → Option Str)
    (lookup : Str → Option RoleRecord) (now : Int)
    (role client_pass : Str) (md5_salt : Option Str) :
    Int × Option Str :=
  match lookup role with
  | none => (STATUS_ERROR, some (roleNotFoundDetail role))
  | some roleTup =>
    match roleTup.rolpassword with
    | none => (STATUS_ERROR, some (noPasswordDetail role))
    | some shadow_pass =>
      if shadow_pass = [] then
        (STATUS_ERROR, some (emptyPasswordDetail role))
      else
        match comparisonPair H role client_pass md5_salt shadow_pass with
        | none => (STATUS_ERROR, none)
        | some (crypt_client_pass, crypt_pwd) =>
          if crypt_client_pass = crypt_pwd then
            match roleTup.rolvaliduntil with
            | none => (STATUS_OK, none)
            | some vuntil =>
              if vuntil < now then
                (STATUS_ERROR, some (expiredDetail role))
              else
                (STATUS_OK, none)
          else
            (STATUS_ERROR, some (mismatchDetail role))

/-- Timing model of the `strcmp` call at line 156: the number of
character-pair inspections `strcmp` performs before returning, which is
one per position until the first differing character (or the shorter
end) is reached. -/
def strcmpSteps : Str → Str → Nat
  | [], _ => 1
  | _ :: _, [] => 1
  | a :: as, b :: bs => if a = b then 1 + strcmpSteps as bs else 1

/-- A concrete executable digest used to instantiate the abstract
`md5hex` in witnesses: always 32 hex characters. -/
def toyMd5hex (s : Str) : Str :=
  let n := s.foldl (fun a c => (a * 31 + c.toNat) % 65536) 7
  (List.range 32).map
    (fun i => "0123456789abcdef".toList.getD ((n + i * 131) % 16) 'x')

theorem toyMd5hex_length (s : Str) : (toyMd5hex s).length = 32 := by
  simp [toyMd5hex]

/-- Replacing a character inside the valid range of a list by a
different character yields a different list. -/
theorem set_ne_of_getD (l : Str) (i : Nat) (c : Char)
    (hi : i < l.length) (hc : c ≠ l.getD i 'a') : l.set i c ≠ l := by
  intro h
  apply hc
  have h1 : (l.set i c).getD i 'a' = c := by
    rw [List.getD_eq_getElem _ _ (by simpa using hi)]
    exact List.getElem_set_self _
  rw [h] at h1
  rw [← h1]

/-- Dropping the three marker characters of a `pg_md5_encrypt` result
(the `shadow_pass + strlen("md5")` pointer arithmetic of lines 104 and
126) recovers the bare digest. -/
theorem drop_marker (md5hex : Str → Str) (passwd salt : Str) :
    (pg_md5_encrypt md5hex passwd salt).drop 3 = md5hex (passwd ++ salt) := by
  show ("md5".toList ++ md5hex (passwd ++ salt)).drop 3 = md5hex (passwd ++ salt)
  have h3 : (3 : Nat) = ("md5".toList : Str).length := rfl
  rw [h3]
  exact List.drop_left _ _

/-- A `pg_md5_encrypt` output whose digest part has the standard 32
characters satisfies the `isMD5` shape test. -/
theorem isMD5_pg_md5_encrypt (md5hex : Str → Str) (passwd salt : Str)
    (hlen : (md5hex (passwd ++ salt)).length = 32) :
    isMD5 (pg_md5_encrypt md5hex passwd salt) = true := by
  have htake : (pg_md5_encrypt md5hex passwd salt).take 3 = "md5".toList := by
    show ("md5".toList ++ md5hex (passwd ++ salt)).take 3 = "md5".toList
    have h3 : (3 : Nat) = ("md5".toList : Str).length := rfl
    rw [h3]
    exact List.take_left _ _
  have hlen35 : (pg_md5_encrypt md5hex passwd salt).length = 35 := by
    show ("md5".toList ++ md5hex (passwd ++ salt)).length = 35
    rw [List.length_append, hlen]
    rfl
  simp [isMD5, MD5_PASSWD_LEN, htake, hlen35]

/-- `md5_crypt_verify` returns exactly one of the two statuses: either
the accepting result, or `STATUS_ERROR` with some (possibly absent) log
detail. -/
theorem md5_crypt_verify_dichotomy (H : Str → Str → Option Str)
    (lookup : Str → Option RoleRecord) (now : Int)
    (role client_pass : Str) (md5_salt : Option Str) :
    md5_crypt_verify H lookup now role client_pass md5_salt = (STATUS_OK, none) ∨
    ∃ d : Option Str,
      md5_crypt_verify H lookup now role client_pass md5_salt = (STATUS_ERROR, d) := by
  rcases h : lookup role with _ | rec
  · exact Or.inr ⟨some (roleNotFoundDetail role), by simp [md5_crypt_verify, h]⟩
  · rcases hp : rec.rolpassword with _ | shadow
    · exact Or.inr ⟨some (noPasswordDetail role), by simp [md5_crypt_verify, h, hp]⟩
    · by_cases hs : shadow = []
      · exact Or.inr ⟨some (emptyPasswordDetail role),
          by simp [md5_crypt_verify, h, hp, hs]⟩
      · rcases hc : comparisonPair H role client_pass md5_salt shadow with _ | ⟨ccp, cp⟩
        · exact Or.inr ⟨none, by simp [md5_crypt_verify, h, hp, hs, hc]⟩
        · by_cases he : ccp = cp
          · rcases hv : rec.rolvaliduntil with _ | vuntil
            · exact Or.inl (by simp [md5_crypt_verify, h, hp, hs, hc, he, hv])
            · by_cases ht : vuntil < now
              · exact Or.inr ⟨some (expiredDetail role),
                  by simp [md5_crypt_verify, h, hp, hs, hc, he, hv, ht]⟩
              · exact Or.inl (by simp [md5_crypt_verify, h, hp, hs, hc, he, hv, ht])
          · exact Or.inr ⟨some (mismatchDetail role),
              by simp [md5_crypt_verify, h, hp, hs, hc, he]⟩

/-- C4: for every identity name absent from the directory (the syscache
lookup at line 56 returns no tuple) and every presented secret —
plaintext or challenge digest — `md5_crypt_verify` returns
`STATUS_ERROR` with the "role does not exist" log detail (lines 57–62);
the presented secret does not influence this outcome. -/
theorem verify_identity_not_found (H : Str → Str → Option Str)
    (lookup : Str → Option RoleRecord) (now : Int)
    (role client_pass : Str) (md5_salt : Option Str)
    (h : lookup role = none) :
    md5_crypt_verify H lookup now role client_pass md5_salt
      = (STATUS_ERROR, some (roleNotFoundDetail role)) := by
  simp [md5_crypt_verify, h]

/-- Witness for C4 at a concrete absent identity. -/
theorem verify_identity_not_found_witness :
    ((fun _ : Str => (none : Option RoleRecord)) "alice".toList = none) ∧
    md5_crypt_verify (pgH toyMd5hex) (fun _ => none) 0 "alice".toList
        "whatever".toList none
      = (STATUS_ERROR, some (roleNotFoundDetail "alice".toList)) :=
  ⟨rfl, verify_identity_not_found _ _ _ _ _ _ rfl⟩

/-- C5: a stored credential with empty byte content is rejected with the
"empty password" detail (lines 82–87) for every presented secret, and a
record whose credential attribute is NULL is likewise rejected as having
no usable credential (lines 64–72). -/
theorem verify_empty_credential (H : Str → Str → Option Str)
    (lookup : Str → Option RoleRecord) (now : Int)
    (role client_pass : Str) (md5_salt : Option Str)
    (rec : RoleRecord) (hl : lookup role = some rec) :
    (rec.rolpassword = some [] →
      md5_crypt_verify H lookup now role client_pass md5_salt
        = (STATUS_ERROR, some (emptyPasswordDetail role))) ∧
    (rec.rolpassword = none →
      md5_crypt_verify H lookup now role client_pass md5_salt
        = (STATUS_ERROR, some (noPasswordDetail role))) := by
  constructor <;> intro hp <;> simp [md5_crypt_verify, hl, hp]

/-- Witness for C5 at a concrete empty credential. -/
theorem verify_empty_credential_witness :
    (dir1 ⟨some [], none⟩ "bob".toList = some ⟨some [], none⟩) ∧
    md5_crypt_verify (pgH toyMd5hex) (dir1 ⟨some [], none⟩) 0 "bob".toList
        "pw".toList none
      = (STATUS_ERROR, some (emptyPasswordDetail "bob".toList)) :=
  ⟨rfl, (verify_empty_credential _ _ _ _ _ _ _ rfl).1 rfl⟩

/-- C6: with a matching presented secret and `rolvaliduntil = T`,
`md5_crypt_verify` at current time `T` minus one second (1000000
microseconds) accepts, at `T` plus one second it rejects with the
"expired password" detail; with `rolvaliduntil` NULL a matching secret
is accepted at every time (lines 156–171). -/
theorem verify_expiration_boundary (H : Str → Str → Option Str)
    (role client_pass shadow_pass : Str) (md5_salt : Option Str) (T : Int)
    (hne : shadow_pass ≠ [])
    (hmatch : ∃ v, comparisonPair H role client_pass md5_salt shadow_pass
        = some (v, v)) :
    md5_crypt_verify H (dir1 ⟨some shadow_pass, some T⟩) (T - 1000000)
        role client_pass md5_salt = (STATUS_OK, none) ∧
    md5_crypt_verify H (dir1 ⟨some shadow_pass, some T⟩) (T + 1000000)
        role client_pass md5_salt
      = (STATUS_ERROR, some (expiredDetail role)) ∧
    ∀ now : Int,
      md5_crypt_verify H (dir1 ⟨some shadow_pass, none⟩) now
        role client_pass md5_salt = (STATUS_OK, none) := by
  obtain ⟨v, hv⟩ := hmatch
  refine ⟨?_, ?_, fun now => ?_⟩
  · simp [md5_crypt_verify, dir1, hne, hv, show ¬ (T < T - 1000000) by omega]
  · simp [md5_crypt_verify, dir1, hne, hv, show T < T + 1000000 by omega]
  · simp [md5_crypt_verify, dir1, hne, hv]

/-- Witness for C6 at a concrete role, matching plaintext secret and
`rolvaliduntil = 0`. -/
theorem verify_expiration_boundary_witness :
    ("pw".toList ≠ ([] : Str)) ∧
    md5_crypt_verify (pgH toyMd5hex) (dir1 ⟨some "pw".toList, some 0⟩)
        (0 - 1000000) "r".toList "pw".toList none = (STATUS_OK, none) :=
  ⟨by decide,
   (verify_expiration_boundary (pgH toyMd5hex) "r".toList "pw".toList
      "pw".toList none 0 (by decide) ⟨"pw".toList, by decide⟩).1⟩

/-- C7: whenever the keyed hash fails (a `pg_md5_encrypt` call returns
false, i.e. `comparisonPair` is `none`), `md5_crypt_verify` returns
`STATUS_ERROR` with `*logdetail` left unset (lines 104–110, 126–133,
143–151 return without touching `logdetail`), an outcome distinct from
every mismatch result — it is never reported as a credential mismatch —
while still rejecting toward the client. -/
theorem hash_failure_distinct (H : Str → Str → Option Str)
    (lookup : Str → Option RoleRecord) (now : Int)
    (role client_pass : Str) (md5_salt : Option Str)
    (rec : RoleRecord) (shadow_pass : Str)
    (hl : lookup role = some rec) (hp : rec.rolpassword = some shadow_pass)
    (hne : shadow_pass ≠ [])
    (hfail : comparisonPair H role client_pass md5_salt shadow_pass = none) :
    md5_crypt_verify H lookup now role client_pass md5_salt
      = (STATUS_ERROR, none) ∧
    ∀ r : Str, ((STATUS_ERROR, none) : Int × Option Str)
      ≠ (STATUS_ERROR, some (mismatchDetail r)) := by
  refine ⟨by simp [md5_crypt_verify, hl, hp, hne, hfail], fun r => by simp⟩

/-- Witness for C7 with an always-failing hash on a challenge-response
attempt against a legacy plaintext credential. -/
theorem hash_failure_distinct_witness :
    comparisonPair (fun _ _ => none) "r".toList "d".toList
        (some "s".toList) "x".toList = none ∧
    md5_crypt_verify (fun _ _ => none) (dir1 ⟨some "x".toList, none⟩) 0
        "r".toList "d".toList (some "s".toList) = (STATUS_ERROR, none) :=
  ⟨by decide,
   (hash_failure_distinct (fun _ _ => none) (dir1 ⟨some "x".toList, none⟩) 0
      "r".toList "d".toList (some "s".toList) ⟨some "x".toList, none⟩
      "x".toList rfl rfl (by decide) (by decide)).1⟩

/-- C1: upgrade equivalence.  For every plaintext secret, identity name
and session salt, the expected challenge digest of the legacy path
(lines 112–135: hash the stored plaintext keyed on the role name, then
apply the salt to that intermediate) equals the expected digest computed
from a credential stored pre-hashed from the same secret and name
(lines 101–111: strip the marker, apply the salt). -/
theorem upgrade_equivalence (md5hex : Str → Str) (secret id salt : Str)
    (hlen : (md5hex (secret ++ id)).length = 32)
    (hplain : isMD5 secret = false) :
    challengeExpected (pgH md5hex) id secret salt
      = challengeExpected (pgH md5hex) id (pg_md5_encrypt md5hex secret id) salt := by
  have hmd5 := isMD5_pg_md5_encrypt md5hex secret id hlen
  have hdrop := drop_marker md5hex secret id
  simp [challengeExpected, hplain, hmd5, pgH, hdrop]

/-- Witness for C1 at the spec's scenario values. -/
theorem upgrade_equivalence_witness :
    isMD5 "secret123".toList = false ∧
    challengeExpected (pgH toyMd5hex) "alice".toList "secret123".toList
        "XY12".toList
      = challengeExpected (pgH toyMd5hex) "alice".toList
          (pg_md5_encrypt toyMd5hex "secret123".toList "alice".toList)
          "XY12".toList :=
  ⟨by decide,
   upgrade_equivalence toyMd5hex "secret123".toList "alice".toList
     "XY12".toList (toyMd5hex_length _) (by decide)⟩

/-- C3: the compared value is produced by an exhaustive case split on
stored form × presented form (lines 96–154).  Stored=Hashed with a
challenge: strip the marker from the stored value and apply the session
salt; Stored=LegacyPlaintext with a challenge: the upgrade path (hash
the stored plaintext keyed on the role name, then apply the salt);
Stored=Hashed with plaintext: hash the presented plaintext keyed on the
role name and compare to the stored value; Stored=LegacyPlaintext with
plaintext: compare raw bytes. -/
theorem verify_case_split (md5hex : Str → Str) (now : Int)
    (role client_pass shadow_pass salt : Str)
    (hne : shadow_pass ≠ []) :
    (isMD5 shadow_pass = true →
      md5_crypt_verify (pgH md5hex) (dir1 ⟨some shadow_pass, none⟩) now
          role client_pass (some salt)
        = if client_pass = pg_md5_encrypt md5hex (shadow_pass.drop 3) salt
          then (STATUS_OK, none)
          else (STATUS_ERROR, some (mismatchDetail role))) ∧
    (isMD5 shadow_pass = false →
      md5_crypt_verify (pgH md5hex) (dir1 ⟨some shadow_pass, none⟩) now
          role client_pass (some salt)
        = if client_pass = pg_md5_encrypt md5hex
              ((pg_md5_encrypt md5hex shadow_pass role).drop 3) salt
          then (STATUS_OK, none)
          else (STATUS_ERROR, some (mismatchDetail role))) ∧
    (isMD5 shadow_pass = true →
      md5_crypt_verify (pgH md5hex) (dir1 ⟨some shadow_pass, none⟩) now
          role client_pass none
        = if pg_md5_encrypt md5hex client_pass role = shadow_pass
          then (STATUS_OK, none)
          else (STATUS_ERROR, some (mismatchDetail role))) ∧
    (isMD5 shadow_pass = false →
      md5_crypt_verify (pgH md5hex) (dir1 ⟨some shadow_pass, none⟩) now
          role client_pass none
        = if client_pass = shadow_pass
          then (STATUS_OK, none)
          else (STATUS_ERROR, some (mismatchDetail role))) := by
  refine ⟨fun h => ?_, fun h => ?_, fun h => ?_, fun h => ?_⟩ <;>
    by_cases hc : client_pass = pg_md5_encrypt md5hex (shadow_pass.drop 3) salt <;>
    simp [md5_crypt_verify, dir1, comparisonPair, challengeExpected, pgH, hne, h]

/-- Witness for C3, plain-stored/plain-presented conjunct at concrete
values. -/
theorem verify_case_split_witness :
    ("pw".toList ≠ ([] : Str)) ∧
    (isMD5 "pw".toList = false →
      md5_crypt_verify (pgH toyMd5hex) (dir1 ⟨some "pw".toList, none⟩) 0
          "r".toList "pw".toList none
        = if "pw".toList = "pw".toList
          then (STATUS_OK, none)
          else (STATUS_ERROR, some (mismatchDetail "r".toList))) :=
  ⟨by decide,
   (verify_case_split toyMd5hex 0 "r".toList "pw".toList "pw".toList
      "XY12".toList (by decide)).2.2.2⟩

/-- C8: for every input, `md5_crypt_verify` returns exactly one of two
client-visible statuses — `STATUS_OK` or `STATUS_ERROR` — and the five
failure classes (role not found, empty/NULL credential, mismatch,
expired, hash failure) all return the same status `STATUS_ERROR`,
differing only in the log-only detail; the five details are pairwise
distinct. -/
theorem reject_uniformity (H : Str → Str → Option Str)
    (lookup : Str → Option RoleRecord) (now : Int)
    (role client_pass : Str) (md5_salt : Option Str) :
    (md5_crypt_verify H lookup now role client_pass md5_salt
        = (STATUS_OK, none) ∨
     ∃ d : Option Str, md5_crypt_verify H lookup now role client_pass md5_salt
        = (STATUS_ERROR, d)) ∧
    md5_crypt_verify (pgH toyMd5hex) (fun _ => none) 0 "u".toList
        "p".toList none
      = (STATUS_ERROR, some (roleNotFoundDetail "u".toList)) ∧
    md5_crypt_verify (pgH toyMd5hex) (dir1 ⟨some [], none⟩) 0 "u".toList
        "p".toList none
      = (STATUS_ERROR, some (emptyPasswordDetail "u".toList)) ∧
    md5_crypt_verify (pgH toyMd5hex) (dir1 ⟨some "a".toList, none⟩) 0
        "u".toList "b".toList none
      = (STATUS_ERROR, some (mismatchDetail "u".toList)) ∧
    md5_crypt_verify (pgH toyMd5hex) (dir1 ⟨some "a".toList, some 0⟩) 1000000
        "u".toList "a".toList none
      = (STATUS_ERROR, some (expiredDetail "u".toList)) ∧
    md5_crypt_verify (fun _ _ => none) (dir1 ⟨some "a".toList, none⟩) 0
        "u".toList "d".toList (some "s".toList)
      = (STATUS_ERROR, none) ∧
    List.Pairwise (fun x y => x ≠ y)
      [some (roleNotFoundDetail "u".toList),
       some (emptyPasswordDetail "u".toList),
       some (mismatchDetail "u".toList),
       some (expiredDetail "u".toList),
       (none : Option Str)] := by
  refine ⟨md5_crypt_verify_dichotomy H lookup now role client_pass md5_salt,
    by decide, by decide, by decide, by decide, by decide, by decide⟩

/-- C9: if a presented secret is accepted, altering any single byte of
the presented plaintext or presented digest (to a different character)
flips the outcome to `STATUS_ERROR` with the "does not match" detail.
For the plaintext-against-hashed case the alteration must not collide
under the keyed hash (`hnc`), which is the claim's implicit ideal-hash
assumption. -/
theorem single_byte_mismatch (md5hex : Str → Str) (now : Int)
    (role client_pass shadow_pass : Str) (vu : Option Int)
    (md5_salt : Option Str) (i : Nat) (c : Char)
    (hacc : md5_crypt_verify (pgH md5hex) (dir1 ⟨some shadow_pass, vu⟩) now
        role client_pass md5_salt = (STATUS_OK, none))
    (hi : i < client_pass.length) (hc : c ≠ client_pass.getD i 'a')
    (hnc : md5_salt = none → isMD5 shadow_pass = true →
        pg_md5_encrypt md5hex (client_pass.set i c) role ≠ shadow_pass) :
    md5_crypt_verify (pgH md5hex) (dir1 ⟨some shadow_pass, vu⟩) now
        role (client_pass.set i c) md5_salt
      = (STATUS_ERROR, some (mismatchDetail role)) := by
  have hne : shadow_pass ≠ [] := by
    intro h
    rw [h] at hacc
    simp [md5_crypt_verify, dir1, STATUS_OK, STATUS_ERROR] at hacc
  have halt : client_pass.set i c ≠ client_pass := set_ne_of_getD _ _ _ hi hc
  rcases md5_salt with _ | salt
  · cases hm5 : isMD5 shadow_pass
    · have hcp : comparisonPair (pgH md5hex) role client_pass none shadow_pass
          = some (client_pass, shadow_pass) := by
        simp [comparisonPair, hm5]
      have hcp2 : comparisonPair (pgH md5hex) role (client_pass.set i c) none
          shadow_pass = some (client_pass.set i c, shadow_pass) := by
        simp [comparisonPair, hm5]
      have heq : client_pass = shadow_pass := by
        by_contra hne2
        rw [show md5_crypt_verify (pgH md5hex) (dir1 ⟨some shadow_pass, vu⟩) now
              role client_pass none
            = (STATUS_ERROR, some (mismatchDetail role)) from by
          simp [md5_crypt_verify, dir1, hne, hcp, hne2]] at hacc
        simp [STATUS_OK, STATUS_ERROR] at hacc
      have halt2 : client_pass.set i c ≠ shadow_pass := heq ▸ halt
      simp [md5_crypt_verify, dir1, hne, hcp2, halt2]
    · have hcp2 : comparisonPair (pgH md5hex) role (client_pass.set i c) none
          shadow_pass
          = some (pg_md5_encrypt md5hex (client_pass.set i c) role,
              shadow_pass) := by
        simp [comparisonPair, hm5, pgH]
      have halt2 := hnc rfl hm5
      simp [md5_crypt_verify, dir1, hne, hcp2, halt2]
  · obtain ⟨e, he⟩ : ∃ e, challengeExpected (pgH md5hex) role shadow_pass salt
        = some e := by
      cases hm5 : isMD5 shadow_pass <;> simp [challengeExpected, hm5, pgH]
    have hcp : comparisonPair (pgH md5hex) role client_pass (some salt)
        shadow_pass = some (client_pass, e) := by
      simp [comparisonPair, he]
    have hcp2 : comparisonPair (pgH md5hex) role (client_pass.set i c)
        (some salt) shadow_pass = some (client_pass.set i c, e) := by
      simp [comparisonPair, he]
    have heq : client_pass = e := by
      by_contra hne2
      rw [show md5_crypt_verify (pgH md5hex) (dir1 ⟨some shadow_pass, vu⟩) now
            role client_pass (some salt)
          = (STATUS_ERROR, some (mismatchDetail role)) from by
        simp [md5_crypt_verify, dir1, hne, hcp, hne2]] at hacc
      simp [STATUS_OK, STATUS_ERROR] at hacc
    have halt2 : client_pass.set i c ≠ e := heq ▸ halt
    simp [md5_crypt_verify, dir1, hne, hcp2, halt2]

/-- Witness for C9: flipping the first byte of a correct plaintext. -/
theorem single_byte_mismatch_witness :
    md5_crypt_verify (pgH toyMd5hex) (dir1 ⟨some "pw".toList, none⟩) 0
        "r".toList "pw".toList none = (STATUS_OK, none) ∧
    md5_crypt_verify (pgH toyMd5hex) (dir1 ⟨some "pw".toList, none⟩) 0
        "r".toList ("pw".toList.set 0 'x') none
      = (STATUS_ERROR, some (mismatchDetail "r".toList)) :=
  ⟨by decide,
   single_byte_mismatch toyMd5hex 0 "r".toList "pw".toList "pw".toList
     none none 0 'x' (by decide) (by decide) (by decide)
     (fun _ h => absurd h (by decide))⟩

/-- C10: the stored credential's form is decided solely by the `isMD5`
shape test on its bytes (line 101/140).  Any stored value satisfying
that shape is treated as pre-hashed in the plaintext path: the presented
plaintext is hashed keyed on the role name and compared to the stored
bytes, so a client presenting the stored bytes themselves as a
plaintext secret is rejected with a mismatch whenever their name-keyed
hash differs from the stored value. -/
theorem shape_determines_tag (md5hex : Str → Str) (now : Int)
    (role shadow_pass : Str)
    (hshape : isMD5 shadow_pass = true)
    (hfix : pg_md5_encrypt md5hex shadow_pass role ≠ shadow_pass) :
    (∀ client_pass : Str,
      comparisonPair (pgH md5hex) role client_pass none shadow_pass
        = some (pg_md5_encrypt md5hex client_pass role, shadow_pass)) ∧
    md5_crypt_verify (pgH md5hex) (dir1 ⟨some shadow_pass, none⟩) now
        role shadow_pass none
      = (STATUS_ERROR, some (mismatchDetail role)) := by
  have hne : shadow_pass ≠ [] := by
    intro h
    rw [h] at hshape
    simp [isMD5, MD5_PASSWD_LEN] at hshape
  refine ⟨fun client_pass => by simp [comparisonPair, hshape, pgH], ?_⟩
  have hcp := (fun client_pass =>
    show comparisonPair (pgH md5hex) role client_pass none shadow_pass
      = some (pg_md5_encrypt md5hex client_pass role, shadow_pass) from
    by simp [comparisonPair, hshape, pgH]) shadow_pass
  simp [md5_crypt_verify, dir1, hne, hcp, hfix]

/-- Witness for C10: a 35-byte stored value with the marker, intended
or not as a digest, is hashed-compared and the identical plaintext is
rejected. -/
theorem shape_determines_tag_witness :
    isMD5 "md5aaaaaaaaaaaaaaaaaaaaaaaaaaaaaaaa".toList = true ∧
    md5_crypt_verify (pgH toyMd5hex)
        (dir1 ⟨some "md5aaaaaaaaaaaaaaaaaaaaaaaaaaaaaaaa".toList, none⟩) 0
        "r".toList "md5aaaaaaaaaaaaaaaaaaaaaaaaaaaaaaaa".toList none
      = (STATUS_ERROR, some (mismatchDetail "r".toList)) :=
  ⟨by decide,
   (shape_determines_tag toyMd5hex 0 "r".toList
      "md5aaaaaaaaaaaaaaaaaaaaaaaaaaaaaaaa".toList
      (by decide) (by decide)).2⟩

/-- C2 counterexample: the comparison of line 156 is ordinary `strcmp`,
whose number of character comparisons is not independent of where the
first differing byte occurs: two equal-length input pairs, one
differing at position 0 and one at position 1, take 1 and 2
comparisons respectively. -/
theorem strcmp_not_constant_time :
    strcmpSteps "Xa".toList "Ya".toList = 1 ∧
    strcmpSteps "aX".toList "aY".toList = 2 ∧
    strcmpSteps "Xa".toList "Ya".toList
      ≠ strcmpSteps "aX".toList "aY".toList := by
  refine ⟨by decide, by decide, by decide⟩

/-- C2 amended: the line-156 comparison is an early-exit byte-by-byte
check — it stops at the first differing character, so its cost grows by
one for every matching leading character and is therefore dependent on
the position of the first difference. -/
theorem strcmp_timing_depends_on_position :
    (∀ (a b : Char) (as bs : Str), a ≠ b →
      strcmpSteps (a :: as) (b :: bs) = 1) ∧
    (∀ (c : Char) (as bs : Str),
      strcmpSteps (c :: as) (c :: bs) = 1 + strcmpSteps as bs) := by
  constructor
  · intro a b as bs h
    simp [strcmpSteps, h]
  · intro c as bs
    simp [strcmpSteps]

/-- Witness for the amended C2 at concrete characters. -/
theorem strcmp_timing_depends_on_position_witness :
    ('X' ≠ 'Y') ∧ strcmpSteps ('X' :: "a".toList) ('Y' :: "a".toList) = 1 :=
  ⟨by decide,
   strcmp_timing_depends_on_position.1 'X' 'Y' "a".toList "a".toList
     (by decide)⟩
